import Mathlib

/-!
Shallow embedding of the Hermony chat application (src/chat.py,
src/FlaskServer.pytApp.py): conversation store, context builder,
command dispatch, one step of the interactive loop, the POST /chat
handler, the /clear endpoint and the startup credential checks.
Python `str.strip()` is modelled by `pyStrip`, `str.lower()` by
`pyLower`, `str.startswith` by `pyStartsWith`, environment lookup by a function
`String → Option String`, and the external Gemini call by an oracle
`String → ApiOutcome` mapping the submitted prompt to what
`client.models.generate_content` did.
-/

/-- Python `str.strip()`: drops leading and trailing whitespace.
Written by structural recursion over the character list so that
concrete instances reduce. -/
def pyStrip (s : String) : String :=
  ⟨((s.data.dropWhile Char.isWhitespace).reverse.dropWhile
      Char.isWhitespace).reverse⟩

/-- Python `str.lower()` on the ASCII command strings used here. -/
def pyLower (s : String) : String :=
  ⟨s.data.map Char.toLower⟩

/-- Python `str.startswith(pre)`. -/
def pyStartsWith (s pre : String) : Bool :=
  pre.data.isPrefixOf s.data

/-- One entry of `conversation_history`: a dict with keys `role`,
`content`, `timestamp` (chat.py lines 69-73, FlaskServer lines 41-45). -/
structure Turn where
  role : String
  content : String
  timestamp : String
deriving DecidableEq, Repr

/-- Persona string returned by the context builder on an empty history
(chat.py line 122, FlaskServer line 52). -/
def defaultPersona : String :=
  "You are a helpful AI assistant. Please respond to the user\x27s questions and requests in a friendly, informative manner."

/-- Fixed preamble line of a non-empty context
(chat.py line 127, FlaskServer line 57). -/
def contextPreamble : String :=
  "You are a helpful AI assistant. Here\x27s our recent conversation:"

/-- Role label used when rendering a turn: `"User" if msg["role"] == "user"
else "Assistant"` (chat.py line 130, FlaskServer line 60). -/
def roleLabel (role : String) : String :=
  if role = "user" then "User" else "Assistant"

/-- One rendered turn-line `f"{role}: {msg['content']}"`
(chat.py line 131, FlaskServer line 61). -/
def turnLine (msg : Turn) : String :=
  roleLabel msg.role ++ ": " ++ msg.content

/-- `GeminiChat._build_context` / `build_context` (chat.py lines 119-133,
FlaskServer lines 48-63), with the two constants the source hardcodes —
the window `10` of `history[-10:]` and the persona literal — abstracted
as parameters; `buildContext` below instantiates them to the source
values.  `history[-10:]` on a list of length `L` is
`drop (L - window)` (the whole list when `L < window`). -/
def build (history : List Turn) (window : Nat) (persona : String) : String :=
  if history = [] then
    persona
  else
    String.intercalate "\n"
      (contextPreamble :: (history.drop (history.length - window)).map turnLine)

/-- The context builder exactly as the source has it: window 10,
persona the fixed literal. -/
def buildContext (history : List Turn) : String :=
  build history 10 defaultPersona

/-- `full_prompt = f"{context}\n\nUser: {user_input}"`
(chat.py line 105, FlaskServer line 86). -/
def fullPrompt (context userInput : String) : String :=
  context ++ "\n\nUser: " ++ userInput

/-- What `client.models.generate_content` did for a given submitted
prompt: it raised an exception, or returned; `returned none` covers a
falsy response object or a `None` `.text`, `returned (some t)` a
response whose `.text` is the string `t`. -/
inductive ApiOutcome where
  | raised (msg : String)
  | returned (text : Option String)
deriving DecidableEq, Repr

/-- Lines printed by `_show_help` (chat.py lines 152-159). -/
def helpLines : List String :=
  ["\n📋 Available Commands:",
   "  /help    - Show this help message",
   "  /clear   - Clear conversation history",
   "  /exit    - Exit the chat",
   "  /history - Show conversation history",
   ""]

/-- Lines printed by `_show_history` (chat.py lines 167-182);
`msg["timestamp"][:19]` is `String.take 19`. -/
def showHistoryLines (history : List Turn) : List String :=
  if history = [] then
    ["📝 No conversation history yet."]
  else
    ["\n📝 Conversation History:",
     "--------------------------------------------------"]
    ++ history.enum.map (fun p =>
         toString (p.1 + 1) ++ ". [" ++ p.2.timestamp.take 19 ++ "] "
         ++ (if p.2.role = "user" then "You" else "Gemini")
         ++ ": " ++ p.2.content)
    ++ ["--------------------------------------------------", ""]

/-- `GeminiChat._handle_command` (chat.py lines 135-150): result is the
new history, the printed lines, and whether the process exited
(`/exit` calls `sys.exit(0)`).  The source normalises with
`command.lower().strip()` before matching. -/
def handleCommand (history : List Turn) (command : String) :
    List Turn × List String × Bool :=
  if pyStrip (pyLower command) = "/help" then
    (history, helpLines, false)
  else if pyStrip (pyLower command) = "/clear" then
    ([], ["✅ Conversation history cleared.", ""], false)
  else if pyStrip (pyLower command) = "/exit" then
    (history, ["👋 Goodbye!"], true)
  else if pyStrip (pyLower command) = "/history" then
    (history, showHistoryLines history, false)
  else
    (history, ["❌ Unknown command: " ++ pyStrip (pyLower command),
               "Type /help for available commands."], false)

/-- Failure notice of the interactive loop (chat.py line 89). -/
def failureNotice : String :=
  "❌ Sorry, I couldn\x27t get a response from Gemini."

/-- Notice printed by `_get_gemini_response` on an exception
(chat.py line 116). -/
def errorGettingNotice (e : String) : String :=
  "❌ Error getting response: " ++ e

/-- What one iteration of `_chat_loop` did after reading the input. -/
inductive LoopAction where
  | skipEmpty
  | ranCommand (printed : List String) (exited : Bool)
  | printedResponse (text : String)
  | printedFailure (printed : List String)
deriving DecidableEq, Repr

/-- Result of one iteration of `_chat_loop`: the conversation history
afterwards, the prompts submitted to the API during the iteration, and
the action taken. -/
structure LoopStepResult where
  history : List Turn
  prompts : List String
  action : LoopAction
deriving DecidableEq, Repr

/-- One iteration of `GeminiChat._chat_loop` (chat.py lines 52-96) with
`_get_gemini_response` (lines 98-117) inlined.  `ts1`/`ts2` are the
timestamps `datetime.now().isoformat()` assigns to the user and
assistant turns; `complete` is the Gemini call oracle.  Note the order
in the source: the user turn is appended to `conversation_history`
(lines 69-73) before `_build_context` reads it (line 102). -/
def chatLoopStep (history : List Turn) (rawInput ts1 ts2 : String)
    (complete : String → ApiOutcome) : LoopStepResult :=
  if (pyStrip rawInput) = "" then
    ⟨history, [], LoopAction.skipEmpty⟩
  else if pyStartsWith ((pyStrip rawInput)) "/" then
    ⟨(handleCommand history (pyStrip rawInput)).1, [],
     LoopAction.ranCommand (handleCommand history (pyStrip rawInput)).2.1
       (handleCommand history (pyStrip rawInput)).2.2⟩
  else
    match complete (fullPrompt
        (buildContext (history ++ [⟨"user", (pyStrip rawInput), ts1⟩]))
        (pyStrip rawInput)) with
    | ApiOutcome.raised e =>
        ⟨history ++ [⟨"user", (pyStrip rawInput), ts1⟩],
         [fullPrompt (buildContext (history ++ [⟨"user", (pyStrip rawInput), ts1⟩]))
            (pyStrip rawInput)],
         LoopAction.printedFailure [errorGettingNotice e, failureNotice]⟩
    | ApiOutcome.returned none =>
        ⟨history ++ [⟨"user", (pyStrip rawInput), ts1⟩],
         [fullPrompt (buildContext (history ++ [⟨"user", (pyStrip rawInput), ts1⟩]))
            (pyStrip rawInput)],
         LoopAction.printedFailure [failureNotice]⟩
    | ApiOutcome.returned (some t) =>
        if t = "" then
          ⟨history ++ [⟨"user", (pyStrip rawInput), ts1⟩],
           [fullPrompt (buildContext (history ++ [⟨"user", (pyStrip rawInput), ts1⟩]))
              (pyStrip rawInput)],
           LoopAction.printedFailure [failureNotice]⟩
        else
          ⟨history ++ [⟨"user", (pyStrip rawInput), ts1⟩, ⟨"assistant", t, ts2⟩],
           [fullPrompt (buildContext (history ++ [⟨"user", (pyStrip rawInput), ts1⟩]))
              (pyStrip rawInput)],
           LoopAction.printedResponse t⟩

/-- Result of the `POST /chat` handler: the session history afterwards,
the prompts submitted, the HTTP status, and the response body (the
assistant text on 200, the error string otherwise). -/
structure HandlerResult where
  history : List Turn
  prompts : List String
  status : Nat
  body : String
deriving DecidableEq, Repr

/-- The `POST /chat` handler `chat` (FlaskServer lines 70-105):
`user_message = data.get('message', '').strip()`; empty → 400 before any
mutation; otherwise `add_to_history('user', ...)`, then the prompt is
built from the history that already includes that turn, and the Gemini
outcome decides between 200, 500 (`if response and response.text`), and
500 from the catch-all `except`. -/
def chatHandler (history : List Turn) (rawMessage ts1 ts2 : String)
    (complete : String → ApiOutcome) : HandlerResult :=
  if (pyStrip rawMessage) = "" then
    ⟨history, [], 400, "Message cannot be empty"⟩
  else
    match complete (fullPrompt
        (buildContext (history ++ [⟨"user", (pyStrip rawMessage), ts1⟩]))
        (pyStrip rawMessage)) with
    | ApiOutcome.raised e =>
        ⟨history ++ [⟨"user", (pyStrip rawMessage), ts1⟩],
         [fullPrompt (buildContext (history ++ [⟨"user", (pyStrip rawMessage), ts1⟩]))
            (pyStrip rawMessage)],
         500, "An error occurred: " ++ e⟩
    | ApiOutcome.returned none =>
        ⟨history ++ [⟨"user", (pyStrip rawMessage), ts1⟩],
         [fullPrompt (buildContext (history ++ [⟨"user", (pyStrip rawMessage), ts1⟩]))
            (pyStrip rawMessage)],
         500, "Failed to get response from Gemini"⟩
    | ApiOutcome.returned (some t) =>
        if t = "" then
          ⟨history ++ [⟨"user", (pyStrip rawMessage), ts1⟩],
           [fullPrompt (buildContext (history ++ [⟨"user", (pyStrip rawMessage), ts1⟩]))
              (pyStrip rawMessage)],
           500, "Failed to get response from Gemini"⟩
        else
          ⟨history ++ [⟨"user", (pyStrip rawMessage), ts1⟩, ⟨"assistant", t, ts2⟩],
           [fullPrompt (buildContext (history ++ [⟨"user", (pyStrip rawMessage), ts1⟩]))
              (pyStrip rawMessage)],
           200, t⟩

/-- `GeminiChat._clear_history` (chat.py lines 161-164): empties the
store and returns the printed confirmation lines. -/
def clearHistory (_ : List Turn) : List Turn × List String :=
  ([], ["✅ Conversation history cleared.", ""])

/-- The `POST /clear` endpoint `clear_history` (FlaskServer lines
107-111): empties the session history and returns the confirmation
message. -/
def clearHistoryRoute (_ : List Turn) : List Turn × String :=
  ([], "History cleared successfully")

/-- The `GET /history` endpoint `get_history` (FlaskServer lines
113-117): returns the full transcript, no side effect. -/
def getHistoryRoute (history : List Turn) : List Turn :=
  history

/-- How a startup prologue ended: either it aborted before the session
loop / server start, printing `printed` and exiting with `exitCode`, or
it proceeded into the session with the looked-up key. -/
inductive StartupOutcome where
  | aborted (printed : List String) (exitCode : Nat)
  | proceeded (apiKey : String)
deriving DecidableEq, Repr

/-- Guidance printed by `main` in chat.py (lines 190-193). -/
def chatKeyGuidance : List String :=
  ["❌ Error: GEMINI_API_KEY environment variable not set.",
   "Please set your API key:",
   "  export GEMINI_API_KEY=\x27your-api-key-here\x27",
   "\nOr run: python chat.py --api-key YOUR_API_KEY"]

/-- Guidance printed by the `__main__` block of FlaskServer (lines
127-129; the first line\x27s marker appears mojibake-encoded in the
source file). -/
def flaskKeyGuidance : List String :=
  ["âŒ Error: GEMINI_API_KEY environment variable not set.",
   "Please set your API key:",
   "  export GEMINI_API_KEY=\x27your-api-key-here\x27"]

/-- Credential check of `main` in chat.py (lines 185-198): on a missing
or empty `GEMINI_API_KEY` it prints the guidance and `return`s — the
script then ends normally, i.e. with exit status 0.  `env` models
`os.getenv`; Python\x27s `if not api_key` is true for `None` and `""`. -/
def chatMain (env : String → Option String) : StartupOutcome :=
  match env "GEMINI_API_KEY" with
  | none => StartupOutcome.aborted chatKeyGuidance 0
  | some k =>
      if k = "" then StartupOutcome.aborted chatKeyGuidance 0
      else StartupOutcome.proceeded k

/-- Credential check of the `__main__` block of FlaskServer (lines
124-130): on a missing or empty key it prints the guidance and calls
`exit(1)`. -/
def flaskMain (env : String → Option String) : StartupOutcome :=
  match env "GEMINI_API_KEY" with
  | none => StartupOutcome.aborted flaskKeyGuidance 1
  | some k =>
      if k = "" then StartupOutcome.aborted flaskKeyGuidance 1
      else StartupOutcome.proceeded k

/-- Exit code of a startup outcome, `none` when the program proceeded. -/
def StartupOutcome.exitCodeOf : StartupOutcome → Option Nat
  | StartupOutcome.aborted _ c => some c
  | StartupOutcome.proceeded _ => none

/-- Claim C1: on a non-empty conversation the context builder emits the
fixed preamble first, then one turn-line per turn of the last-10 window
(`min(L, 10)` of them), in original order (the window is a suffix of the
conversation), joined by single newlines. -/
theorem build_context_nonempty_window (h : List Turn) (hne : h ≠ []) :
    buildContext h =
      String.intercalate "\n"
        (contextPreamble :: (h.drop (h.length - 10)).map turnLine)
    ∧ ((h.drop (h.length - 10)).map turnLine).length = min h.length 10
    ∧ h.drop (h.length - 10) <:+ h := by
  refine ⟨?_, ?_, List.drop_suffix _ _⟩
  · simp [buildContext, build, hne]
  · rw [List.length_map, List.length_drop]
    omega

/-- Closed instance of `build_context_nonempty_window` on a one-turn
conversation. -/
theorem build_context_nonempty_window_witness :
    buildContext [⟨"user", "hi", "t"⟩] =
      String.intercalate "\n"
        (contextPreamble ::
          (([⟨"user", "hi", "t"⟩] : List Turn).drop
            (([⟨"user", "hi", "t"⟩] : List Turn).length - 10)).map turnLine)
    ∧ ((([⟨"user", "hi", "t"⟩] : List Turn).drop
          (([⟨"user", "hi", "t"⟩] : List Turn).length - 10)).map turnLine).length
        = min ([⟨"user", "hi", "t"⟩] : List Turn).length 10
    ∧ ([⟨"user", "hi", "t"⟩] : List Turn).drop
        (([⟨"user", "hi", "t"⟩] : List Turn).length - 10)
        <:+ [⟨"user", "hi", "t"⟩] :=
  build_context_nonempty_window [⟨"user", "hi", "t"⟩] (by decide)

/-- Claim C2: on an empty conversation the builder returns exactly the
persona string — for the source constants, and for any window and
persona in the parameterised form — with no preamble or turn-lines. -/
theorem build_context_empty_returns_persona :
    (∀ (w : Nat) (P : String), build [] w P = P)
    ∧ buildContext [] = defaultPersona :=
  ⟨fun _ _ => rfl, rfl⟩

/-- Claim C3: input that trims to empty is rejected before any history
mutation or API call — the loop skips the iteration with the history
untouched and no prompt submitted, and the handler returns 400 with the
error body, also with no mutation and no call. -/
theorem empty_message_rejected (hist : List Turn) (raw ts1 ts2 : String)
    (complete : String → ApiOutcome) (hempty : pyStrip raw = "") :
    chatLoopStep hist raw ts1 ts2 complete
      = ⟨hist, [], LoopAction.skipEmpty⟩
    ∧ chatHandler hist raw ts1 ts2 complete
      = ⟨hist, [], 400, "Message cannot be empty"⟩ := by
  constructor
  · simp [chatLoopStep, hempty]
  · simp [chatHandler, hempty]

/-- Closed instance of `empty_message_rejected` on whitespace-only
input and a one-turn prior history. -/
theorem empty_message_rejected_witness :
    chatLoopStep [⟨"user", "hi", "t0"⟩] "   " "t1" "t2"
        (fun _ => ApiOutcome.returned none)
      = ⟨[⟨"user", "hi", "t0"⟩], [], LoopAction.skipEmpty⟩
    ∧ chatHandler [⟨"user", "hi", "t0"⟩] "   " "t1" "t2"
        (fun _ => ApiOutcome.returned none)
      = ⟨[⟨"user", "hi", "t0"⟩], [], 400, "Message cannot be empty"⟩ :=
  empty_message_rejected _ _ _ _ _ (by decide)

/-- Claim C4: when the completion call raises or yields no usable text
(`None` response/text or empty text), the just-appended user turn is the
last turn of the conversation, no assistant turn is appended, the loop
prints a failure notice, and the handler answers 500. -/
theorem completion_failure_preserves_user_turn (hist : List Turn)
    (raw ts1 ts2 : String) (complete : String → ApiOutcome)
    (hne : pyStrip raw ≠ "")
    (hcmd : pyStartsWith (pyStrip raw) "/" = false)
    (hfail : ∀ t, complete (fullPrompt
        (buildContext (hist ++ [⟨"user", pyStrip raw, ts1⟩]))
        (pyStrip raw)) = ApiOutcome.returned (some t) → t = "") :
    (chatLoopStep hist raw ts1 ts2 complete).history
      = hist ++ [⟨"user", pyStrip raw, ts1⟩]
    ∧ (∃ notices, (chatLoopStep hist raw ts1 ts2 complete).action
        = LoopAction.printedFailure notices)
    ∧ (chatHandler hist raw ts1 ts2 complete).history
      = hist ++ [⟨"user", pyStrip raw, ts1⟩]
    ∧ (chatHandler hist raw ts1 ts2 complete).status = 500 := by
  unfold chatLoopStep chatHandler
  rw [if_neg hne, if_neg (by simp [hcmd]), if_neg hne]
  rcases hc : complete (fullPrompt
      (buildContext (hist ++ [⟨"user", pyStrip raw, ts1⟩]))
      (pyStrip raw)) with e | o
  · rw [hc]
    exact ⟨rfl, ⟨[errorGettingNotice e, failureNotice], rfl⟩, rfl, rfl⟩
  · rcases o with _ | t
    · rw [hc]
      exact ⟨rfl, ⟨[failureNotice], rfl⟩, rfl, rfl⟩
    · have ht : t = "" := hfail t hc
      subst ht
      rw [hc]
      exact ⟨rfl, ⟨[failureNotice], rfl⟩, rfl, rfl⟩

/-- Closed instance of `completion_failure_preserves_user_turn` with an
API call that raises. -/
theorem completion_failure_preserves_user_turn_witness :
    (chatLoopStep [] "hello" "t1" "t2"
        (fun _ => ApiOutcome.raised "boom")).history
      = [] ++ [⟨"user", "hello", "t1"⟩]
    ∧ (∃ notices, (chatLoopStep [] "hello" "t1" "t2"
        (fun _ => ApiOutcome.raised "boom")).action
        = LoopAction.printedFailure notices)
    ∧ (chatHandler [] "hello" "t1" "t2"
        (fun _ => ApiOutcome.raised "boom")).history
      = [] ++ [⟨"user", "hello", "t1"⟩]
    ∧ (chatHandler [] "hello" "t1" "t2"
        (fun _ => ApiOutcome.raised "boom")).status = 500 :=
  completion_failure_preserves_user_turn [] "hello" "t1" "t2" _
    (by decide) (by decide) (fun t h => ApiOutcome.noConfusion h)

/-- Claim C6: a rendered turn-line is labelled `"User"` exactly when the
stored role is `"user"`, and `"Assistant"` for every other role value,
as a defined fallback. -/
theorem role_label_user_iff (r : String) :
    (roleLabel r = "User" ↔ r = "user")
    ∧ (r ≠ "user" → roleLabel r = "Assistant") := by
  unfold roleLabel
  by_cases h : r = "user"
  · subst h
    simp
  · rw [if_neg h]
    exact ⟨⟨fun habs => absurd habs (by decide), fun hc => absurd hc h⟩,
           fun _ => rfl⟩

/-- Closed instance of `role_label_user_iff`: an unrecognized role is
rendered as `"Assistant"`. -/
theorem role_label_user_iff_witness :
    roleLabel "system" = "Assistant" :=
  (role_label_user_iff "system").2 (by decide)

/-- Claim C7: an accepted ordinary message is stored as a user turn
whose content is the input trimmed of surrounding whitespace, in both
the interactive loop and the web handler. -/
theorem accepted_message_stored_trimmed (hist : List Turn)
    (raw ts1 ts2 : String) (complete : String → ApiOutcome)
    (hne : pyStrip raw ≠ "")
    (hcmd : pyStartsWith (pyStrip raw) "/" = false) :
    (∃ rest, (chatLoopStep hist raw ts1 ts2 complete).history
        = hist ++ ⟨"user", pyStrip raw, ts1⟩ :: rest)
    ∧ (∃ rest, (chatHandler hist raw ts1 ts2 complete).history
        = hist ++ ⟨"user", pyStrip raw, ts1⟩ :: rest) := by
  constructor
  · unfold chatLoopStep
    rw [if_neg hne, if_neg (by simp [hcmd])]
    rcases hc : complete (fullPrompt
        (buildContext (hist ++ [⟨"user", pyStrip raw, ts1⟩]))
        (pyStrip raw)) with e | o
    · rw [hc]
      exact ⟨[], rfl⟩
    · rcases o with _ | t
      · rw [hc]
        exact ⟨[], rfl⟩
      · rw [hc]
        by_cases ht : t = ""
        · exact ⟨[], by simp [ht]⟩
        · exact ⟨[⟨"assistant", t, ts2⟩], by simp [ht]⟩
  · unfold chatHandler
    rw [if_neg hne]
    rcases hc : complete (fullPrompt
        (buildContext (hist ++ [⟨"user", pyStrip raw, ts1⟩]))
        (pyStrip raw)) with e | o
    · rw [hc]
      exact ⟨[], rfl⟩
    · rcases o with _ | t
      · rw [hc]
        exact ⟨[], rfl⟩
      · rw [hc]
        by_cases ht : t = ""
        · exact ⟨[], by simp [ht]⟩
        · exact ⟨[⟨"assistant", t, ts2⟩], by simp [ht]⟩

/-- Closed instance of `accepted_message_stored_trimmed`: appending
`"  hi  "` stores content `"hi"`. -/
theorem accepted_message_stored_trimmed_witness :
    (∃ rest, (chatLoopStep [] "  hi  " "t1" "t2"
        (fun _ => ApiOutcome.returned none)).history
        = [] ++ ⟨"user", "hi", "t1"⟩ :: rest)
    ∧ (∃ rest, (chatHandler [] "  hi  " "t1" "t2"
        (fun _ => ApiOutcome.returned none)).history
        = [] ++ ⟨"user", "hi", "t1"⟩ :: rest) :=
  accepted_message_stored_trimmed [] "  hi  " "t1" "t2" _
    (by decide) (by decide)

/-- Claim C5, counterexample: with the credential absent, the CLI
`main` prints the guidance and returns normally, so the process exit
status is 0 — not non-zero as claimed. -/
theorem missing_key_cli_exit_status_zero :
    StartupOutcome.exitCodeOf (chatMain (fun _ => none)) = some 0 :=
  rfl

/-- Claim C5 as amended: with the credential absent or empty, both
programs print human-readable guidance (including the line asking to
set the key) and never reach the session loop; the web server exits
with status 1, while the CLI returns from `main` and the process exits
with status 0. -/
theorem missing_credential_aborts_startup (env : String → Option String)
    (hmiss : env "GEMINI_API_KEY" = none ∨ env "GEMINI_API_KEY" = some "") :
    chatMain env = StartupOutcome.aborted chatKeyGuidance 0
    ∧ flaskMain env = StartupOutcome.aborted flaskKeyGuidance 1
    ∧ "Please set your API key:" ∈ chatKeyGuidance
    ∧ "Please set your API key:" ∈ flaskKeyGuidance := by
  rcases hmiss with h | h <;>
    exact ⟨by simp [chatMain, h], by simp [flaskMain, h],
           by decide, by decide⟩

/-- Closed instance of `missing_credential_aborts_startup` on an
environment with no key at all. -/
theorem missing_credential_aborts_startup_witness :
    chatMain (fun _ => none) = StartupOutcome.aborted chatKeyGuidance 0
    ∧ flaskMain (fun _ => none) = StartupOutcome.aborted flaskKeyGuidance 1
    ∧ "Please set your API key:" ∈ chatKeyGuidance
    ∧ "Please set your API key:" ∈ flaskKeyGuidance :=
  missing_credential_aborts_startup _ (Or.inl rfl)

/-- Claim C8, counterexample: on an empty prior conversation and
message `"hi"`, the submitted prompt is not the builder output on the
prior conversation followed by the final `User:` line — because the
user turn is appended to history before the context is built, the
builder output already contains the new message, which therefore
appears twice in the prompt. -/
theorem prompt_duplicates_new_message :
    (chatLoopStep [] "hi" "t1" "t2"
        (fun _ => ApiOutcome.returned none)).prompts
      ≠ [buildContext [] ++ "\n\nUser: " ++ "hi"]
    ∧ (chatLoopStep [] "hi" "t1" "t2"
        (fun _ => ApiOutcome.returned none)).prompts
      = [contextPreamble ++ "\nUser: hi" ++ "\n\nUser: hi"]
    ∧ buildContext [⟨"user", "hi", "t1"⟩]
      = contextPreamble ++ "\nUser: hi" := by
  refine ⟨by decide, by decide, by decide⟩

/-- Claim C8 as amended: the prompt submitted to the completion client
is the context builder's output on the conversation that already
includes the just-appended user turn, followed by the new message as a
final `"User: "` line — so the new message appears both as the last
turn-line of the context and as the final line. -/
theorem prompt_is_context_after_append (hist : List Turn)
    (raw ts1 ts2 : String) (complete : String → ApiOutcome)
    (hne : pyStrip raw ≠ "")
    (hcmd : pyStartsWith (pyStrip raw) "/" = false) :
    (chatLoopStep hist raw ts1 ts2 complete).prompts
      = [buildContext (hist ++ [⟨"user", pyStrip raw, ts1⟩])
          ++ "\n\nUser: " ++ pyStrip raw]
    ∧ (chatHandler hist raw ts1 ts2 complete).prompts
      = [buildContext (hist ++ [⟨"user", pyStrip raw, ts1⟩])
          ++ "\n\nUser: " ++ pyStrip raw] := by
  unfold chatLoopStep chatHandler
  rw [if_neg hne, if_neg (by simp [hcmd]), if_neg hne]
  rcases hc : complete (fullPrompt
      (buildContext (hist ++ [⟨"user", pyStrip raw, ts1⟩]))
      (pyStrip raw)) with e | o
  · rw [hc]
    exact ⟨rfl, rfl⟩
  · rcases o with _ | t
    · rw [hc]
      exact ⟨rfl, rfl⟩
    · rw [hc]
      by_cases ht : t = ""
      · exact ⟨by simp [ht, fullPrompt], by simp [ht, fullPrompt]⟩
      · exact ⟨by simp [ht, fullPrompt], by simp [ht, fullPrompt]⟩

/-- Closed instance of `prompt_is_context_after_append`. -/
theorem prompt_is_context_after_append_witness :
    (chatLoopStep [] "hey" "t1" "t2"
        (fun _ => ApiOutcome.returned none)).prompts
      = [buildContext [⟨"user", "hey", "t1"⟩] ++ "\n\nUser: " ++ "hey"]
    ∧ (chatHandler [] "hey" "t1" "t2"
        (fun _ => ApiOutcome.returned none)).prompts
      = [buildContext [⟨"user", "hey", "t1"⟩] ++ "\n\nUser: " ++ "hey"] :=
  prompt_is_context_after_append [] "hey" "t1" "t2" _
    (by decide) (by decide)

/-- Claim C9: clearing — via the loop\x27s `/clear` command, the
`_clear_history` method, or the web `/clear` endpoint — always yields an
empty conversation whatever the prior length, a subsequent read returns
the empty sequence, and clearing again (idempotence) keeps it empty. -/
theorem clear_empties_and_idempotent (hist : List Turn) :
    (clearHistory hist).1 = []
    ∧ (clearHistory ((clearHistory hist).1)).1 = []
    ∧ (handleCommand hist "/clear").1 = []
    ∧ (handleCommand ((handleCommand hist "/clear").1) "/clear").1 = []
    ∧ (clearHistoryRoute hist).1 = []
    ∧ (clearHistoryRoute ((clearHistoryRoute hist).1)).1 = []
    ∧ getHistoryRoute ((clearHistoryRoute hist).1) = [] :=
  ⟨rfl, rfl, rfl, rfl, rfl, rfl, rfl⟩

/-- Claim C10: command dispatch depends only on the lowercased, trimmed
input, so matching is case-insensitive — `/EXIT` and `/Clear` behave
like `/exit` and `/clear` — and the unknown-command notice echoes the
lowercased form. -/
theorem command_dispatch_case_insensitive :
    (∀ (hist : List Turn) (c₁ c₂ : String),
        pyStrip (pyLower c₁) = pyStrip (pyLower c₂) →
        handleCommand hist c₁ = handleCommand hist c₂)
    ∧ (∀ hist : List Turn,
        handleCommand hist "/EXIT" = handleCommand hist "/exit")
    ∧ (∀ hist : List Turn,
        handleCommand hist "/Clear" = handleCommand hist "/clear")
    ∧ (∀ hist : List Turn,
        handleCommand hist "/FroB" =
          (hist, ["❌ Unknown command: /frob",
                  "Type /help for available commands."], false)) := by
  refine ⟨?_, fun hist => rfl, fun hist => rfl, fun hist => rfl⟩
  intro hist c₁ c₂ h
  unfold handleCommand
  rw [h]

/-- Closed instance of the normalisation part of
`command_dispatch_case_insensitive`. -/
theorem command_dispatch_case_insensitive_witness :
    handleCommand [] "/HELP" = handleCommand [] "/help" :=
  command_dispatch_case_insensitive.1 [] "/HELP" "/help" (by decide)
